import Mathlib

/-!
Verification of the key-value file store (`kv_store.py`).

Shallow embedding conventions:
* Python `dict` (insertion ordered, unique keys) is an association list
  `List (String × Entry)`; `self.data[k] = e` updates in place when the key is
  present and appends otherwise, `del self.data[k]` removes the entry.
* `time.time()` returns a float; every claim only compares timestamps, so time
  is modelled as `Int` (the truthiness test `if entry["expiry"]` is kept
  faithfully: a stored expiry of `0` is falsy in Python).
* `json.dumps` with its default arguments (`ensure_ascii=True`, separators
  `", "` and `": "`, no key sorting) is modelled by `dumps` over a JSON value
  type without floats; `len` of the resulting `str` is `String.length`
  (all output characters are ASCII under `ensure_ascii`).
* The store file is modelled by its existence flag and byte size; `save_data`
  rewrites it with the serialized table. Exceptions are modelled with
  `Except`: each operation returns the post-state and an `Except` outcome
  (a raised exception still keeps mutations made before the raise).
* `threading.Lock` is non-reentrant: a thread that re-acquires a lock it
  already holds blocks forever. `LockOutcome.deadlock` models this for
  `batch_create`, which calls `create` while holding `self.lock`.
-/

namespace KVStore

/-- JSON-like values (`json.dumps`-serializable, floats omitted). -/
inductive JValue where
  | null : JValue
  | jbool : Bool → JValue
  | jint : Int → JValue
  | jstr : String → JValue
  | jarr : List JValue → JValue
  | jobj : List (String × JValue) → JValue

/-- Lower-case hex digit, as produced by Python's `'\x7b0:04x\x7d'.format`. -/
def hexDigit (n : Nat) : Char :=
  if n < 10 then Char.ofNat (48 + n) else Char.ofNat (87 + n)

/-- Four lower-case hex digits. -/
def hex4 (n : Nat) : String :=
  String.mk [hexDigit (n / 4096 % 16), hexDigit (n / 256 % 16),
             hexDigit (n / 16 % 16), hexDigit (n % 16)]

/-- Escaping of one character inside a JSON string literal, following
`json.encoder.py_encode_basestring_ascii`: the short escapes of `ESCAPE_DCT`,
then `\uXXXX` (with surrogate pairs above `0xffff`) for every character
outside `0x20..0x7e`, and the character itself otherwise. -/
def escapeChar (c : Char) : String :=
  if c = '\\' then "\\\\"
  else if c = '"' then "\\\""
  else if c = Char.ofNat 8 then "\\b"
  else if c = Char.ofNat 12 then "\\f"
  else if c = '\n' then "\\n"
  else if c = '\r' then "\\r"
  else if c = '\t' then "\\t"
  else if c.toNat < 32 ∨ 126 < c.toNat then
    if c.toNat ≤ 65535 then "\\u" ++ hex4 c.toNat
    else
      let v := c.toNat - 65536
      "\\u" ++ hex4 (55296 + v / 1024) ++ "\\u" ++ hex4 (56320 + v % 1024)
  else String.singleton c

/-- Escape every character of a JSON string body. -/
def escapeChars : List Char → String
  | [] => ""
  | c :: cs => escapeChar c ++ escapeChars cs

/-- `py_encode_basestring_ascii` without the surrounding quotes. -/
def escapeString (s : String) : String :=
  escapeChars s.data

mutual

/-- Python `json.dumps` with default arguments: item separator `", "`,
key separator `": "`, `ensure_ascii=True`, insertion order preserved. -/
def dumps : JValue → String
  | .null => "null"
  | .jbool b => if b then "true" else "false"
  | .jint n => toString n
  | .jstr s => "\"" ++ escapeString s ++ "\""
  | .jarr xs => "[" ++ dumpsList xs ++ "]"
  | .jobj fs => "\x7b" ++ dumpsFields fs ++ "\x7d"

/-- Array elements joined by `", "`. -/
def dumpsList : List JValue → String
  | [] => ""
  | [x] => dumps x
  | x :: y :: xs => dumps x ++ ", " ++ dumpsList (y :: xs)

/-- Object members `"key": value` joined by `", "`. -/
def dumpsFields : List (String × JValue) → String
  | [] => ""
  | [(k, v)] => "\"" ++ escapeString k ++ "\": " ++ dumps v
  | (k, v) :: f :: fs =>
      "\"" ++ escapeString k ++ "\": " ++ dumps v ++ ", " ++ dumpsFields (f :: fs)

end

/-- `MAX_KEY_LENGTH = 32` (kv_store.py line 8). -/
def MAX_KEY_LENGTH : Nat := 32

/-- `MAX_VALUE_SIZE = 16 * 1024` (kv_store.py line 9). -/
def MAX_VALUE_SIZE : Nat := 16 * 1024

/-- `MAX_FILE_SIZE = 1 * 1024 * 1024 * 1024` (kv_store.py line 10). -/
def MAX_FILE_SIZE : Nat := 1 * 1024 * 1024 * 1024

/-- `BATCH_LIMIT = 100` (kv_store.py line 11). -/
def BATCH_LIMIT : Nat := 100

/-- The `KeyValueStoreError` subclasses of kv_store.py. -/
inductive KVError where
  | keyNotFound : KVError
  | keyExists : KVError
  | valueTooLarge : KVError
  | keyTooLong : KVError
  | fileSizeLimitExceeded : KVError
  | batchSizeLimitExceeded : KVError
deriving DecidableEq

/-- One record of `self.data`: the dict `\x7b"value": ..., "expiry": ...\x7d`.
`expiry` is `None` or an absolute timestamp. -/
structure Entry where
  value : JValue
  expiry : Option Int

/-- The in-memory table `self.data`, a Python dict in insertion order. -/
abbrev Table := List (String × Entry)

/-- `key in self.data` / `self.data[key]` lookup. -/
def lookupKey : Table → String → Option Entry
  | [], _ => none
  | (k', e) :: rest, k => if k' = k then some e else lookupKey rest k

/-- `self.data[key] = entry`: update in place when present, append otherwise. -/
def setKey : Table → String → Entry → Table
  | [], k, e => [(k, e)]
  | (k', e') :: rest, k, e =>
      if k' = k then (k, e) :: rest else (k', e') :: setKey rest k e

/-- `del self.data[key]`. -/
def removeKey : Table → String → Table
  | [], _ => []
  | (k', e') :: rest, k => if k' = k then rest else (k', e') :: removeKey rest k

/-- Engine state: the table plus the store file, modelled by its existence and
size in bytes (`os.path.getsize`). -/
structure Store where
  data : Table
  fileExists : Bool
  fileSize : Nat

/-- The JSON object an entry serializes to (dict insertion order:
`"value"` then `"expiry"`). -/
def entryToJson (e : Entry) : JValue :=
  .jobj [("value", e.value),
         ("expiry", match e.expiry with | none => .null | some t => .jint t)]

/-- The JSON object `json.dump(self.data, f)` writes. -/
def tableToJson (t : Table) : JValue :=
  .jobj (t.map fun p => (p.1, entryToJson p.2))

/-- `save_data`: overwrite the store file with the serialized table. -/
def save_data (s : Store) : Store :=
  { s with fileExists := true, fileSize := (dumps (tableToJson s.data)).length }

/-- Python truthiness of the `ttl` argument: `if ttl:` is false for `None`
and for `0`. -/
def truthyTTL : Option Int → Bool
  | none => false
  | some t => t != 0

/-- `time.time() + ttl if ttl else None` (kv_store.py lines 66-69 and 73). -/
def mkExpiry (now : Int) (ttl : Option Int) : Option Int :=
  if truthyTTL ttl then some (now + ttl.getD 0) else none

/-- `entry["expiry"] and time.time() > entry["expiry"]` (kv_store.py lines 90
and 130): a `0` expiry is falsy, so such an entry never counts as expired. -/
def isExpired (now : Int) (e : Entry) : Bool :=
  match e.expiry with
  | none => false
  | some x => x != 0 && now > x

/-- `_would_exceed_file_size_limit` (kv_store.py lines 140-144):
current file size plus `len(json.dumps(\x7bnew_key: new_entry\x7d))`
compared against `MAX_FILE_SIZE`. -/
def would_exceed_file_size_limit (s : Store) (newKey : String) (newEntry : Entry) : Bool :=
  let currentSize := if s.fileExists then s.fileSize else 0
  let newDataSize := (dumps (.jobj [(newKey, entryToJson newEntry)])).length
  decide (currentSize + newDataSize > MAX_FILE_SIZE)

/-- `create` (kv_store.py lines 53-82). Validation: key length, then
serialized value size. An existing key is overwritten (value and expiry);
a new key is size-checked, then inserted. Both paths end in `save_data`. -/
def create (now : Int) (s : Store) (key : String) (value : JValue)
    (ttl : Option Int) : Store × Except KVError Unit :=
  if key.length > MAX_KEY_LENGTH then (s, .error .keyTooLong)
  else
    let serialized := dumps value
    if serialized.length > MAX_VALUE_SIZE then (s, .error .valueTooLarge)
    else
      match lookupKey s.data key with
      | some _ =>
          let e1 : Entry := ⟨value, mkExpiry now ttl⟩
          (save_data { s with data := setKey s.data key e1 }, .ok ())
      | none =>
          let newEntry : Entry := ⟨value, mkExpiry now ttl⟩
          if would_exceed_file_size_limit s key newEntry then
            (s, .error .fileSizeLimitExceeded)
          else
            (save_data { s with data := setKey s.data key newEntry }, .ok ())

/-- `read` (kv_store.py lines 84-95): absent key fails; a present expired key
is evicted, persisted, and then fails; otherwise the stored value is
returned. -/
def read (now : Int) (s : Store) (key : String) : Store × Except KVError JValue :=
  match lookupKey s.data key with
  | none => (s, .error .keyNotFound)
  | some e =>
      if isExpired now e then
        (save_data { s with data := removeKey s.data key }, .error .keyNotFound)
      else
        (s, .ok e.value)

/-- `delete` (kv_store.py lines 97-103): absent key fails; any present key —
expired or not, the expiry is never examined — is removed and persisted. -/
def delete (s : Store) (key : String) : Store × Except KVError Unit :=
  match lookupKey s.data key with
  | none => (s, .error .keyNotFound)
  | some _ => (save_data { s with data := removeKey s.data key }, .ok ())

/-- One iteration of the `_ttl_cleanup` loop body (kv_store.py lines 126-136):
collect the keys of expired entries, delete them, save iff any were
collected. -/
def ttl_cleanup_tick (now : Int) (s : Store) : Store :=
  let expiredKeys := (s.data.filter fun p => isExpired now p.2).map Prod.fst
  let s1 : Store := { s with data := expiredKeys.foldl removeKey s.data }
  if expiredKeys.isEmpty then s1 else save_data s1

/-- Result of running an operation on the thread that may already hold the
non-reentrant `self.lock`: either it completes (post-state and outcome) or it
blocks forever re-acquiring the lock. -/
inductive LockOutcome (α : Type) where
  | ok : α → LockOutcome α
  | deadlock : LockOutcome α
deriving DecidableEq

/-- The `for key, value in items.items(): self.create(key, value)` loop of
`batch_create`, run while `self.lock` is already held: `create` validates the
key and value first (outside its `with self.lock:`), so an invalid first item
raises and propagates; a valid item then blocks acquiring `self.lock` a
second time — a self-deadlock, so no later item is ever reached. -/
def batchLoop (s : Store) : List (String × JValue) → LockOutcome (Store × Except KVError Unit)
  | [] => .ok (s, .ok ())
  | (k, v) :: _ =>
      if k.length > MAX_KEY_LENGTH then .ok (s, .error .keyTooLong)
      else if (dumps v).length > MAX_VALUE_SIZE then .ok (s, .error .valueTooLarge)
      else .deadlock

/-- `batch_create` (kv_store.py lines 105-111): the batch-size guard, then the
per-item `create` calls under the already-held lock. -/
def batch_create (s : Store) (items : List (String × JValue)) :
    LockOutcome (Store × Except KVError Unit) :=
  if items.length > BATCH_LIMIT then .ok (s, .error .batchSizeLimitExceeded)
  else batchLoop s items

/-! ### Helper lemmas -/

theorem escapeChar_x : escapeChar 'x' = "x" := rfl

theorem escapeChars_replicate_x_length (n : Nat) :
    (escapeChars (List.replicate n 'x')).length = n := by
  induction n with
  | zero => rfl
  | succ n ih =>
      rw [List.replicate_succ]
      show (escapeChar 'x' ++ escapeChars (List.replicate n 'x')).length = n + 1
      rw [escapeChar_x, String.length_append, ih,
        show "x".length = 1 from rfl]
      omega

theorem length_replicate_x (n : Nat) :
    (String.mk (List.replicate n 'x')).length = n := by
  rw [String.length_mk, List.length_replicate]

theorem lookupKey_setKey_self (t : Table) (k : String) (e : Entry) :
    lookupKey (setKey t k e) k = some e := by
  induction t with
  | nil => simp [setKey, lookupKey]
  | cons p rest ih =>
      by_cases h : p.1 = k
      · simp [setKey, lookupKey, h]
      · simp [setKey, lookupKey, h, ih]

theorem save_data_data (s : Store) : (save_data s).data = s.data := rfl

theorem mem_keys_setKey {t : Table} {k k' : String} {e : Entry}
    (h : k' ∈ (setKey t k e).map Prod.fst) :
    k' ∈ t.map Prod.fst ∨ k' = k := by
  induction t with
  | nil =>
      simp [setKey] at h
      exact Or.inr h
  | cons p rest ih =>
      obtain ⟨k0, e0⟩ := p
      by_cases hp : k0 = k
      · rw [show setKey ((k0, e0) :: rest) k e = (k, e) :: rest from by
          simp [setKey, hp]] at h
        rw [List.map_cons] at h
        rcases List.mem_cons.mp h with h | h
        · exact Or.inr h
        · exact Or.inl (by rw [List.map_cons]; exact List.mem_cons.mpr (Or.inr h))
      · rw [show setKey ((k0, e0) :: rest) k e = (k0, e0) :: setKey rest k e from by
          simp [setKey, hp]] at h
        rw [List.map_cons] at h
        rcases List.mem_cons.mp h with h | h
        · exact Or.inl (by rw [List.map_cons]; exact List.mem_cons.mpr (Or.inl h))
        · rcases ih h with h' | h'
          · exact Or.inl (by rw [List.map_cons]; exact List.mem_cons.mpr (Or.inr h'))
          · exact Or.inr h'

theorem mem_keys_removeKey {t : Table} {k k' : String}
    (h : k' ∈ (removeKey t k).map Prod.fst) : k' ∈ t.map Prod.fst := by
  induction t with
  | nil => simp [removeKey] at h
  | cons p rest ih =>
      obtain ⟨k0, e0⟩ := p
      by_cases hp : k0 = k
      · rw [show removeKey ((k0, e0) :: rest) k = rest from by
          simp [removeKey, hp]] at h
        rw [List.map_cons]
        exact List.mem_cons_of_mem _ h
      · rw [show removeKey ((k0, e0) :: rest) k = (k0, e0) :: removeKey rest k from by
          simp [removeKey, hp]] at h
        rw [List.map_cons] at h ⊢
        rcases List.mem_cons.mp h with h | h
        · exact List.mem_cons.mpr (Or.inl h)
        · exact List.mem_cons.mpr (Or.inr (ih h))

theorem mem_keys_foldl_removeKey {L : List String} {t : Table} {k' : String}
    (h : k' ∈ (L.foldl removeKey t).map Prod.fst) : k' ∈ t.map Prod.fst := by
  induction L generalizing t with
  | nil => exact h
  | cons x L ih => exact mem_keys_removeKey (ih h)

theorem removeKey_cons_ne {k x : String} {e : Entry} {t : Table} (h : k ≠ x) :
    removeKey ((k, e) :: t) x = (k, e) :: removeKey t x := by
  simp [removeKey, h]

theorem foldl_removeKey_cons_ne {L : List String} {k : String} {e : Entry}
    {t : Table} (h : ∀ x ∈ L, x ≠ k) :
    L.foldl removeKey ((k, e) :: t) = (k, e) :: L.foldl removeKey t := by
  induction L generalizing t with
  | nil => rfl
  | cons x L ih =>
      have hx : k ≠ x := fun hk => (h x (by simp)) hk.symm
      show L.foldl removeKey (removeKey ((k, e) :: t) x) = _
      rw [removeKey_cons_ne hx]
      exact ih fun y hy => h y (by simp [hy])

theorem foldl_removeKey_filter (p : String × Entry → Bool) (t : Table)
    (hnd : (t.map Prod.fst).Nodup) :
    ((t.filter p).map Prod.fst).foldl removeKey t = t.filter fun x => !p x := by
  induction t with
  | nil => rfl
  | cons q rest ih =>
      obtain ⟨k, e⟩ := q
      rw [List.map_cons, List.nodup_cons] at hnd
      obtain ⟨hk, hrest⟩ := hnd
      by_cases hp : p (k, e)
      · rw [List.filter_cons_of_pos hp, List.map_cons, List.foldl_cons]
        have h1 : removeKey ((k, e) :: rest) k = rest := by simp [removeKey]
        rw [h1, List.filter_cons_of_neg (by simp [hp]), ih hrest]
      · rw [List.filter_cons_of_neg hp]
        have hne : ∀ x ∈ (rest.filter p).map Prod.fst, x ≠ k := by
          intro x hx hxk
          exact hk (hxk ▸ List.map_subset Prod.fst (List.filter_subset' rest) hx)
        rw [foldl_removeKey_cons_ne hne, List.filter_cons_of_pos (by simp [hp]),
          ih hrest]

theorem tick_data (now : Int) (s : Store) :
    (ttl_cleanup_tick now s).data =
      ((s.data.filter fun p => isExpired now p.2).map Prod.fst).foldl
        removeKey s.data := by
  simp only [ttl_cleanup_tick]
  split <;> simp [save_data]

theorem create_data_cases (now : Int) (s : Store) (key : String) (value : JValue)
    (ttl : Option Int) :
    (create now s key value ttl).1.data = s.data ∨
    ((create now s key value ttl).1.data =
        setKey s.data key ⟨value, mkExpiry now ttl⟩ ∧
      key.length ≤ MAX_KEY_LENGTH) := by
  by_cases h1 : key.length > MAX_KEY_LENGTH
  · left; simp [create, h1]
  · by_cases h2 : (dumps value).length > MAX_VALUE_SIZE
    · left; simp [create, h1, h2]
    · cases hl : lookupKey s.data key with
      | some e =>
          right
          exact ⟨by simp [create, h1, h2, hl, save_data], Nat.not_lt.mp h1⟩
      | none =>
          cases h3 : would_exceed_file_size_limit s key ⟨value, mkExpiry now ttl⟩ with
          | true => left; simp [create, h1, h2, hl, h3]
          | false =>
              right
              exact ⟨by simp [create, h1, h2, hl, h3, save_data], Nat.not_lt.mp h1⟩

theorem read_data_cases (now : Int) (s : Store) (key : String) :
    (read now s key).1.data = s.data ∨
    (read now s key).1.data = removeKey s.data key := by
  cases hl : lookupKey s.data key with
  | none => left; simp [read, hl]
  | some e =>
      cases he : isExpired now e with
      | true => right; simp [read, hl, he, save_data]
      | false => left; simp [read, hl, he]

theorem delete_data_cases (s : Store) (key : String) :
    (delete s key).1.data = s.data ∨
    (delete s key).1.data = removeKey s.data key := by
  cases hl : lookupKey s.data key with
  | none => left; simp [delete, hl]
  | some e => right; simp [delete, hl, save_data]

theorem dumps_value_obj_length (n : Nat) :
    (dumps (.jobj [("value", .jstr (String.mk (List.replicate n 'x')))])).length =
      n + 13 := by
  have e1 : (escapeString (String.mk (List.replicate n 'x'))).length = n :=
    escapeChars_replicate_x_length n
  simp [dumps, dumpsFields, String.length_append, e1,
    show escapeString "value" = "value" from rfl,
    show ("\x7b" : String).length = 1 from rfl,
    show ("\x7d" : String).length = 1 from rfl,
    show ("\"" : String).length = 1 from rfl,
    show ("\": " : String).length = 3 from rfl,
    show ("\"value\": " : String).length = 9 from rfl,
    show ("value" : String).length = 5 from rfl]
  omega

/-! ### Claims -/

/-- **C1** (code bug). The spec and the repository's own test
`test_delete_expired_key` require `delete` to fail with `KeyNotFound` on a
present-but-expired key; `delete` in kv_store.py never inspects the expiry,
so on the same state where `read` reports the key as expired and gone,
`delete` succeeds silently. -/
theorem claim_C1_delete_ignores_expiry :
    isExpired 10 ⟨.jstr "v", some 5⟩ = true ∧
    (read 10 ⟨[("test_key", ⟨.jstr "v", some 5⟩)], true, 40⟩ "test_key").2 =
      .error .keyNotFound ∧
    (delete ⟨[("test_key", ⟨.jstr "v", some 5⟩)], true, 40⟩ "test_key").2 =
      .ok () :=
  ⟨rfl, rfl, rfl⟩

/-- **C2** (code bug). The spec and the tests `test_batch_create` /
`test_batch_create_with_errors` require `batch_create` to return a per-key
outcome map with each valid item applied; the code instead calls `create`
(which re-acquires the non-reentrant `self.lock`) while already holding that
lock, so even a one-item valid batch deadlocks and no outcome map is ever
produced. -/
theorem claim_C2_batch_returns_no_outcomes :
    batch_create ⟨[], false, 0⟩
      [("key1", .jobj [("value", .jstr "value1")]),
       ("key2", .jobj [("value", .jstr "value2")]),
       ("key3", .jobj [("value", .jstr "value3")])] = .deadlock :=
  rfl

/-- **C3** (counterexample). A non-empty batch within the batch limit whose
first item fails validation does *not* deadlock: `create` validates before
acquiring the lock, so the validation error propagates out of
`batch_create`. -/
theorem claim_C3_counterexample :
    batch_create ⟨[], false, 0⟩ [(String.mk (List.replicate 33 'x'), .null)] =
      .ok (⟨[], false, 0⟩, .error .keyTooLong) :=
  rfl

/-- **C3** (amended). For every batch within the batch limit whose first item
passes validation (key ≤ 32 chars, serialized value ≤ 16384 bytes),
`batch_create` holds the process-wide non-reentrant lock and the inner
`create` call blocks acquiring it again, so the call deadlocks. -/
theorem claim_C3_batch_deadlock (s : Store) (k : String) (v : JValue)
    (rest : List (String × JValue))
    (hlen : ((k, v) :: rest).length ≤ BATCH_LIMIT)
    (hk : k.length ≤ MAX_KEY_LENGTH)
    (hv : (dumps v).length ≤ MAX_VALUE_SIZE) :
    batch_create s ((k, v) :: rest) = .deadlock := by
  simp [batch_create, batchLoop, Nat.not_lt.mpr hk, Nat.not_lt.mpr hv]
  simpa using hlen

/-- Witness for C3: the two-item batch of `kv_manual_test.py` deadlocks. -/
theorem claim_C3_batch_deadlock_witness :
    batch_create ⟨[], false, 0⟩
      [("batch_key1", .jobj [("value", .jstr "batch_value1")]),
       ("batch_key2", .jobj [("value", .jstr "batch_value2")])] = .deadlock :=
  claim_C3_batch_deadlock ⟨[], false, 0⟩ "batch_key1"
    (.jobj [("value", .jstr "batch_value1")])
    [("batch_key2", .jobj [("value", .jstr "batch_value2")])]
    (by decide) (by decide) (by decide)

/-- **C4** (counterexample). With the store file already at the 1 GiB
ceiling, overwriting an existing key passes no size check at all: the
projected size exceeds the ceiling yet `create` succeeds and rewrites the
file, so the ceiling is not enforced on every create. -/
theorem claim_C4_counterexample :
    would_exceed_file_size_limit ⟨[("k", ⟨.null, none⟩)], true, MAX_FILE_SIZE⟩
      "k" ⟨.null, none⟩ = true ∧
    (create 0 ⟨[("k", ⟨.null, none⟩)], true, MAX_FILE_SIZE⟩ "k" .null none).2 =
      .ok () :=
  ⟨by decide, rfl⟩

/-- **C4** (amended). Only for a key that is *new* does `create` project the
file size (current size plus the serialized singleton `\x7bkey: entry\x7d`)
and fail with `FileSizeLimitExceeded` without touching the table; overwrites
of existing keys skip the check entirely. -/
theorem claim_C4_new_key_size_check (now : Int) (s : Store) (key : String)
    (value : JValue) (ttl : Option Int)
    (hk : key.length ≤ MAX_KEY_LENGTH)
    (hv : (dumps value).length ≤ MAX_VALUE_SIZE)
    (hnew : lookupKey s.data key = none)
    (hex : would_exceed_file_size_limit s key ⟨value, mkExpiry now ttl⟩ = true) :
    create now s key value ttl = (s, .error .fileSizeLimitExceeded) := by
  have h1 : ¬ key.length > MAX_KEY_LENGTH := Nat.not_lt.mpr hk
  have h2 : ¬ (dumps value).length > MAX_VALUE_SIZE := Nat.not_lt.mpr hv
  simp [create, h1, h2, hnew, hex]

/-- Witness for C4: a fresh key on a file already at the ceiling is
rejected without mutation. -/
theorem claim_C4_new_key_size_check_witness :
    create 0 ⟨[], true, MAX_FILE_SIZE⟩ "k" .null none =
      (⟨[], true, MAX_FILE_SIZE⟩, .error .fileSizeLimitExceeded) :=
  claim_C4_new_key_size_check 0 ⟨[], true, MAX_FILE_SIZE⟩ "k" .null none
    (by decide) (by decide) rfl (by decide)

/-- **C5** (confirmed). For a key already present, `create` with a valid key,
value and an optional positive ttl does not fail (in particular never with
`KeyExists`): it overwrites the entry with the new value and replaces the
expiry with `now + ttl` (no expiry when ttl is omitted) and returns
normally. -/
theorem claim_C5_overwrite (now : Int) (s : Store) (key : String)
    (value : JValue) (ttl : Option Int) (e : Entry)
    (hmem : lookupKey s.data key = some e)
    (hk : key.length ≤ MAX_KEY_LENGTH)
    (hv : (dumps value).length ≤ MAX_VALUE_SIZE)
    (httl : ttl = none ∨ ∃ t : Int, 0 < t ∧ ttl = some t) :
    (create now s key value ttl).2 = .ok () ∧
    lookupKey (create now s key value ttl).1.data key =
      some ⟨value, ttl.map fun t => now + t⟩ := by
  have h1 : ¬ key.length > MAX_KEY_LENGTH := Nat.not_lt.mpr hk
  have h2 : ¬ (dumps value).length > MAX_VALUE_SIZE := Nat.not_lt.mpr hv
  have hexp : mkExpiry now ttl = ttl.map fun t => now + t := by
    rcases httl with rfl | ⟨t, ht, rfl⟩
    · rfl
    · simp [mkExpiry, truthyTTL, ht.ne']
  refine ⟨by simp [create, h1, h2, hmem], ?_⟩
  simp [create, h1, h2, hmem, save_data, hexp, lookupKey_setKey_self]

/-- Witness for C5: overwriting an existing key with a ttl succeeds and
stores the new value with expiry `now + ttl`. -/
theorem claim_C5_overwrite_witness :
    (create 100 ⟨[("test_key", ⟨.jstr "old", none⟩)], true, 44⟩ "test_key"
      (.jstr "new") (some 2)).2 = .ok () ∧
    lookupKey (create 100 ⟨[("test_key", ⟨.jstr "old", none⟩)], true, 44⟩
      "test_key" (.jstr "new") (some 2)).1.data "test_key" =
      some ⟨.jstr "new", (some 2).map fun t => 100 + t⟩ :=
  claim_C5_overwrite 100 ⟨[("test_key", ⟨.jstr "old", none⟩)], true, 44⟩
    "test_key" (.jstr "new") (some 2) ⟨.jstr "old", none⟩ rfl (by decide)
    (by decide) (Or.inr ⟨2, by decide, rfl⟩)

/-- **C6** (counterexample). `create` only checks the *upper* key-length
bound: the empty key (length 0, outside the claimed 1..32 range) is accepted
and ends up in the table. -/
theorem claim_C6_counterexample :
    (create 0 ⟨[], false, 0⟩ "" .null none).2 = .ok () ∧
    (create 0 ⟨[], false, 0⟩ "" .null none).1.data.map Prod.fst = [""] ∧
    ¬ 1 ≤ ("" : String).length :=
  ⟨rfl, rfl, by decide⟩

/-- **C6** (amended). Every key inserted through the operations has length at
most 32 — `create` rejects longer keys up front, and `create`, `read`,
`delete` and the sweeper tick all preserve the bound — but no minimum length
is enforced (the empty key is accepted). -/
theorem claim_C6_key_length_invariant :
    (∀ (now : Int) (s : Store) (key : String) (value : JValue) (ttl : Option Int),
        MAX_KEY_LENGTH < key.length →
        create now s key value ttl = (s, .error .keyTooLong)) ∧
    (∀ (now : Int) (s : Store) (key : String) (value : JValue) (ttl : Option Int),
        (∀ k ∈ s.data.map Prod.fst, k.length ≤ MAX_KEY_LENGTH) →
        ∀ k ∈ (create now s key value ttl).1.data.map Prod.fst,
          k.length ≤ MAX_KEY_LENGTH) ∧
    (∀ (now : Int) (s : Store) (key : String),
        (∀ k ∈ s.data.map Prod.fst, k.length ≤ MAX_KEY_LENGTH) →
        ∀ k ∈ (read now s key).1.data.map Prod.fst,
          k.length ≤ MAX_KEY_LENGTH) ∧
    (∀ (s : Store) (key : String),
        (∀ k ∈ s.data.map Prod.fst, k.length ≤ MAX_KEY_LENGTH) →
        ∀ k ∈ (delete s key).1.data.map Prod.fst,
          k.length ≤ MAX_KEY_LENGTH) ∧
    (∀ (now : Int) (s : Store),
        (∀ k ∈ s.data.map Prod.fst, k.length ≤ MAX_KEY_LENGTH) →
        ∀ k ∈ (ttl_cleanup_tick now s).data.map Prod.fst,
          k.length ≤ MAX_KEY_LENGTH) := by
  refine ⟨?_, ?_, ?_, ?_, ?_⟩
  · intro now s key value ttl h
    simp [create, h]
  · intro now s key value ttl hs k hk
    rcases create_data_cases now s key value ttl with h | ⟨h, hlen⟩
    · exact hs k (h ▸ hk)
    · rw [h] at hk
      rcases mem_keys_setKey hk with h' | h'
      · exact hs k h'
      · exact h' ▸ hlen
  · intro now s key hs k hk
    rcases read_data_cases now s key with h | h
    · exact hs k (h ▸ hk)
    · exact hs k (mem_keys_removeKey (h ▸ hk))
  · intro s key hs k hk
    rcases delete_data_cases s key with h | h
    · exact hs k (h ▸ hk)
    · exact hs k (mem_keys_removeKey (h ▸ hk))
  · intro now s hs k hk
    rw [tick_data] at hk
    exact hs k (mem_keys_foldl_removeKey hk)

/-- Witness for C6: the rejection and each preservation clause at concrete
stores. -/
theorem claim_C6_key_length_invariant_witness :
    create 0 ⟨[], false, 0⟩ (String.mk (List.replicate 33 'x')) .null none =
      (⟨[], false, 0⟩, .error .keyTooLong) ∧
    (∀ k ∈ (create 0 ⟨[("a", ⟨.null, none⟩)], true, 38⟩ "b" .null
        none).1.data.map Prod.fst, k.length ≤ MAX_KEY_LENGTH) ∧
    (∀ k ∈ (read 9 ⟨[("a", ⟨.null, some 4⟩)], true, 35⟩
        "a").1.data.map Prod.fst, k.length ≤ MAX_KEY_LENGTH) ∧
    (∀ k ∈ (delete ⟨[("a", ⟨.null, none⟩)], true, 38⟩
        "a").1.data.map Prod.fst, k.length ≤ MAX_KEY_LENGTH) ∧
    (∀ k ∈ (ttl_cleanup_tick 9 ⟨[("a", ⟨.null, some 4⟩)], true,
        35⟩).data.map Prod.fst, k.length ≤ MAX_KEY_LENGTH) :=
  ⟨claim_C6_key_length_invariant.1 0 ⟨[], false, 0⟩
      (String.mk (List.replicate 33 'x')) .null none (by decide),
    claim_C6_key_length_invariant.2.1 0 ⟨[("a", ⟨.null, none⟩)], true, 38⟩
      "b" .null none (by decide),
    claim_C6_key_length_invariant.2.2.1 9 ⟨[("a", ⟨.null, some 4⟩)], true, 35⟩
      "a" (by decide),
    claim_C6_key_length_invariant.2.2.2.1 ⟨[("a", ⟨.null, none⟩)], true, 38⟩
      "a" (by decide),
    claim_C6_key_length_invariant.2.2.2.2 9 ⟨[("a", ⟨.null, some 4⟩)], true, 35⟩
      (by decide)⟩

/-- **C7** (confirmed). The size limits are exact boundaries, and key length
is validated before value size: a serialized value of exactly 16384 bytes
succeeds and 16385 fails with `ValueTooLarge`; a 32-character key succeeds
and a 33-character key fails with `KeyTooLong` whatever the value. -/
theorem claim_C7_boundaries :
    (∀ (now : Int) (s : Store) (key : String) (value : JValue) (ttl : Option Int),
        key.length ≤ MAX_KEY_LENGTH →
        (dumps value).length = 16384 →
        (lookupKey s.data key = none →
          would_exceed_file_size_limit s key ⟨value, mkExpiry now ttl⟩ = false) →
        (create now s key value ttl).2 = .ok ()) ∧
    (∀ (now : Int) (s : Store) (key : String) (value : JValue) (ttl : Option Int),
        key.length ≤ MAX_KEY_LENGTH →
        (dumps value).length = 16385 →
        (create now s key value ttl).2 = .error .valueTooLarge) ∧
    (∀ (now : Int) (s : Store) (key : String) (value : JValue) (ttl : Option Int),
        key.length = 32 →
        (dumps value).length ≤ MAX_VALUE_SIZE →
        (lookupKey s.data key = none →
          would_exceed_file_size_limit s key ⟨value, mkExpiry now ttl⟩ = false) →
        (create now s key value ttl).2 = .ok ()) ∧
    (∀ (now : Int) (s : Store) (key : String) (value : JValue) (ttl : Option Int),
        key.length = 33 →
        (create now s key value ttl).2 = .error .keyTooLong) := by
  refine ⟨?_, ?_, ?_, ?_⟩
  · intro now s key value ttl hk hv hfile
    have h1 : ¬ key.length > MAX_KEY_LENGTH := Nat.not_lt.mpr hk
    have h2 : ¬ (dumps value).length > MAX_VALUE_SIZE := by rw [hv]; decide
    cases hl : lookupKey s.data key with
    | some e => simp [create, h1, h2, hl]
    | none => simp [create, h1, h2, hl, hfile hl]
  · intro now s key value ttl hk hv
    have h1 : ¬ key.length > MAX_KEY_LENGTH := Nat.not_lt.mpr hk
    have h2 : (dumps value).length > MAX_VALUE_SIZE := by rw [hv]; decide
    simp [create, h1, h2]
  · intro now s key value ttl hk hv hfile
    have h1 : ¬ key.length > MAX_KEY_LENGTH := by rw [hk]; decide
    have h2 : ¬ (dumps value).length > MAX_VALUE_SIZE := Nat.not_lt.mpr hv
    cases hl : lookupKey s.data key with
    | some e => simp [create, h1, h2, hl]
    | none => simp [create, h1, h2, hl, hfile hl]
  · intro now s key value ttl hk
    have h1 : key.length > MAX_KEY_LENGTH := by rw [hk]; decide
    simp [create, h1]

/-- Witness for C7: concrete values of serialized size exactly 16384 and
16385, and keys of exactly 32 and 33 characters, on concrete stores. -/
theorem claim_C7_boundaries_witness :
    (create 0 ⟨[(String.mk (List.replicate 32 'x'), ⟨.null, none⟩)], true, 100⟩
      (String.mk (List.replicate 32 'x'))
      (.jobj [("value", .jstr (String.mk (List.replicate 16371 'x')))])
      none).2 = .ok () ∧
    (create 0 ⟨[], false, 0⟩ "large_key"
      (.jobj [("value", .jstr (String.mk (List.replicate 16372 'x')))])
      none).2 = .error .valueTooLarge ∧
    (create 0 ⟨[(String.mk (List.replicate 32 'x'), ⟨.null, none⟩)], true, 100⟩
      (String.mk (List.replicate 32 'x')) .null none).2 = .ok () ∧
    (create 0 ⟨[], false, 0⟩ (String.mk (List.replicate 33 'x')) .null
      none).2 = .error .keyTooLong :=
  ⟨claim_C7_boundaries.1 0
      ⟨[(String.mk (List.replicate 32 'x'), ⟨.null, none⟩)], true, 100⟩
      (String.mk (List.replicate 32 'x'))
      (.jobj [("value", .jstr (String.mk (List.replicate 16371 'x')))]) none
      (by rw [length_replicate_x]; decide)
      ((dumps_value_obj_length 16371).trans (by norm_num))
      (fun h => by simp [lookupKey] at h),
    claim_C7_boundaries.2.1 0 ⟨[], false, 0⟩ "large_key"
      (.jobj [("value", .jstr (String.mk (List.replicate 16372 'x')))]) none
      (by decide) ((dumps_value_obj_length 16372).trans (by norm_num)),
    claim_C7_boundaries.2.2.1 0
      ⟨[(String.mk (List.replicate 32 'x'), ⟨.null, none⟩)], true, 100⟩
      (String.mk (List.replicate 32 'x')) .null none
      (length_replicate_x 32) (by decide)
      (fun h => by simp [lookupKey] at h),
    claim_C7_boundaries.2.2.2 0 ⟨[], false, 0⟩
      (String.mk (List.replicate 33 'x')) .null none
      (length_replicate_x 33)⟩

/-- **C8** (confirmed). Round-trip: a successful `create` followed by a
`read` at any time at which the written entry has not expired returns
exactly the value that was written. -/
theorem claim_C8_roundtrip (now now' : Int) (s : Store) (key : String)
    (value : JValue) (ttl : Option Int)
    (hk : key.length ≤ MAX_KEY_LENGTH)
    (hv : (dumps value).length ≤ MAX_VALUE_SIZE)
    (hfile : lookupKey s.data key = none →
      would_exceed_file_size_limit s key ⟨value, mkExpiry now ttl⟩ = false)
    (hfresh : isExpired now' ⟨value, mkExpiry now ttl⟩ = false) :
    (create now s key value ttl).2 = .ok () ∧
    (read now' (create now s key value ttl).1 key).2 = .ok value := by
  have h1 : ¬ key.length > MAX_KEY_LENGTH := Nat.not_lt.mpr hk
  have h2 : ¬ (dumps value).length > MAX_VALUE_SIZE := Nat.not_lt.mpr hv
  cases hl : lookupKey s.data key with
  | some e =>
      refine ⟨by simp [create, h1, h2, hl], ?_⟩
      simp [create, read, h1, h2, hl, save_data, lookupKey_setKey_self, hfresh]
  | none =>
      refine ⟨by simp [create, h1, h2, hl, hfile hl], ?_⟩
      simp [create, read, h1, h2, hl, hfile hl, save_data,
        lookupKey_setKey_self, hfresh]

/-- Witness for C8: create with a 1-second ttl and read back immediately. -/
theorem claim_C8_roundtrip_witness :
    (create 100 ⟨[], false, 0⟩ "test_key"
      (.jobj [("value", .jstr "test_value")]) (some 1)).2 = .ok () ∧
    (read 100 (create 100 ⟨[], false, 0⟩ "test_key"
      (.jobj [("value", .jstr "test_value")]) (some 1)).1 "test_key").2 =
      .ok (.jobj [("value", .jstr "test_value")]) :=
  claim_C8_roundtrip 100 100 ⟨[], false, 0⟩ "test_key"
    (.jobj [("value", .jstr "test_value")]) (some 1) (by decide) (by decide)
    (fun _ => by decide) (by decide)

/-- **C9** (counterexample). The sweeper's expiry test inherits Python's
truthiness: an entry whose expiry is *set* to `0` — set, and in the past at
`now = 5` — is falsy, so the tick removes nothing and does not persist,
against the claim that exactly the set-and-passed entries are removed. -/
theorem claim_C9_counterexample :
    lookupKey [("k", ⟨.null, some 0⟩)] "k" = some ⟨.null, some 0⟩ ∧
    (0 : Int) < 5 ∧
    ttl_cleanup_tick 5 ⟨[("k", ⟨.null, some 0⟩)], true, 30⟩ =
      ⟨[("k", ⟨.null, some 0⟩)], true, 30⟩ :=
  ⟨rfl, by decide, rfl⟩

/-- **C9** (amended). One sweeper tick removes exactly the entries whose
expiry is set, non-zero (a zero expiry is falsy and treated as never
expiring) and in the past, leaves every other entry unchanged in order, and
persists the table if and only if at least one entry was removed. -/
theorem claim_C9_sweeper (now : Int) (s : Store)
    (hnd : (s.data.map Prod.fst).Nodup) :
    (ttl_cleanup_tick now s).data =
      s.data.filter (fun p => !isExpired now p.2) ∧
    ((s.data.filter fun p => isExpired now p.2) = [] →
      ttl_cleanup_tick now s = s) ∧
    ((s.data.filter fun p => isExpired now p.2) ≠ [] →
      (ttl_cleanup_tick now s).fileExists = true ∧
      (ttl_cleanup_tick now s).fileSize =
        (dumps (tableToJson (ttl_cleanup_tick now s).data)).length) := by
  refine ⟨?_, ?_, ?_⟩
  · rw [tick_data]
    exact foldl_removeKey_filter _ s.data hnd
  · intro h
    simp [ttl_cleanup_tick, h]
  · intro h
    have hne : ((s.data.filter fun p => isExpired now p.2).map Prod.fst).isEmpty =
        false := by
      cases hfl : s.data.filter fun p => isExpired now p.2 with
      | nil => exact absurd hfl h
      | cons y ys => simp [hfl]
    simp [ttl_cleanup_tick, hne, save_data]

/-- Witness for C9: a two-entry table with one expired entry; the tick keeps
exactly the unexpired one. -/
theorem claim_C9_sweeper_witness :
    (ttl_cleanup_tick 10 ⟨[("a", ⟨.null, some 3⟩), ("b", ⟨.null, none⟩)],
      true, 70⟩).data =
      [("a", (⟨.null, some 3⟩ : Entry)), ("b", ⟨.null, none⟩)].filter
        (fun p => !isExpired 10 p.2) :=
  (claim_C9_sweeper 10 ⟨[("a", ⟨.null, some 3⟩), ("b", ⟨.null, none⟩)],
    true, 70⟩ (by decide)).1

/-- **C10** (confirmed). `create` with `ttl = 0` behaves exactly like
`create` with the ttl omitted (Python truthiness: `if ttl:` is false for 0),
and when it succeeds the stored entry has no expiry — for new keys and
overwrites alike. -/
theorem claim_C10_ttl_zero :
    (∀ (now : Int) (s : Store) (key : String) (value : JValue),
        create now s key value (some 0) = create now s key value none) ∧
    (∀ (now : Int) (s : Store) (key : String) (value : JValue),
        (create now s key value (some 0)).2 = .ok () →
        lookupKey (create now s key value (some 0)).1.data key =
          some ⟨value, none⟩) := by
  constructor
  · intro now s key value
    have h : mkExpiry now (some 0) = mkExpiry now none := rfl
    simp only [create, h]
  · intro now s key value hok
    have hz : mkExpiry now (some 0) = none := rfl
    by_cases h1 : key.length > MAX_KEY_LENGTH
    · simp [create, h1] at hok
    · by_cases h2 : (dumps value).length > MAX_VALUE_SIZE
      · simp [create, h1, h2] at hok
      · cases hl : lookupKey s.data key with
        | some e =>
            simp [create, h1, h2, hl, save_data, hz, lookupKey_setKey_self]
        | none =>
            cases h3 : would_exceed_file_size_limit s key ⟨value, none⟩ with
            | true => simp [create, h1, h2, hl, hz, h3] at hok
            | false =>
                simp [create, h1, h2, hl, hz, h3, save_data,
                  lookupKey_setKey_self]

/-- Witness for C10: a successful `create` with ttl 0 stores no expiry
(both for a new key and for an overwrite). -/
theorem claim_C10_ttl_zero_witness :
    lookupKey (create 7 ⟨[("k", ⟨.jstr "old", some 9⟩)], true, 40⟩ "k"
      .null (some 0)).1.data "k" = some ⟨.null, none⟩ :=
  claim_C10_ttl_zero.2 7 ⟨[("k", ⟨.jstr "old", some 9⟩)], true, 40⟩ "k"
    .null rfl

end KVStore
